import Mathlib

/-!
Shallow embedding of the go-i2p/go-meta-listener repository: the MetaListener
supervisor (metalistener.go, listener.go, handler.go and their refactored
versions), the Mirror profile (mirror package) and the hardened TCP listener
(tcp package), together with theorems about the specified behaviour.

Machine integers do not occur on the verified paths; Go durations are modelled
as natural numbers of nanoseconds and Go strings as Lean strings (lists of
characters).  Goroutine-channel interactions are modelled as pure state
transitions: a channel is a queue, a broadcast close is a boolean flag, and an
operation that would suspend is an explicit `blocked` outcome.
-/

/-- Go `strings.Contains s sub`: whether `sub` occurs contiguously inside `s`. -/
def goContains (s sub : String) : Bool :=
  decide (List.IsInfix sub.data s.data)

/-- Go `strings.HasSuffix s sfx`: whether `s` ends with `sfx`. -/
def goHasSuffix (s sfx : String) : Bool :=
  decide (List.IsSuffix sfx.data s.data)

/-- Kind of an underlying `net.Listener` handed to the supervisor.  `mockL`
stands for any listener coming from outside the Mirror composition. -/
inductive LKind where
  | tcpHardened
  | onionSvc
  | garlicSvc
  | tlsAcme
  | mockL
deriving DecidableEq, Repr

/-- An inner listener as the supervisor sees it: the error message its `Close`
returns (`none` = nil), plus, for Mirror-created listeners, the kind of
transport and whether it is a TLS variant. -/
structure InnerListener where
  kind : LKind := .mockL
  usesTls : Bool := false
  closeErrMsg : Option String := none
deriving DecidableEq, Repr

/-- `ConnResult` (metalistener.go): a connection tagged with the id of the
listener that accepted it.  Connections themselves are opaque, identified by a
number. -/
structure ConnResult where
  conn : Nat
  src : String
deriving DecidableEq, Repr

/-- State of a `MetaListener`.  `listeners`, `connCh`, `closeCh`, `isClosed`
and the worker counter come from metalistener.go / part_004; `isShuttingDown`
and `removeCh` are modelled from the spec (§3 supervisor state): the current
struct declaration with these fields is missing from src, but handler.go
references `removeListenerCh` and the atomic `isClosed`, and the test
`TestWaitGroupSynchronization` exercises the shutting-down flag. -/
structure MetaListener where
  listeners : List (String × InnerListener) := []
  connCh : List ConnResult := []
  connChClosed : Bool := false
  closeChClosed : Bool := false
  isClosed : Bool := false
  isShuttingDown : Bool := false
  removeCh : List String := []
  workers : Nat := 0
deriving DecidableEq, Repr

/-- `NewMetaListener`: empty registry, empty channels, all flags down. -/
def newMetaListener : MetaListener := {}

/-- Message of `ErrListenerClosed`. -/
def errListenerClosedMsg : String := "listener is closed"

/-- Message of `ErrNoListeners`. -/
def errNoListenersMsg : String := "no active listeners"

/-- `closeAllListeners` (part_004 lines 173-182): close every registered
listener and collect the error messages of the closes that fail. -/
def closeAllListeners (ls : List (String × InnerListener)) : List String :=
  ls.filterMap (fun p => p.2.closeErrMsg)

/-- Space-separated join, as Go's `%v` prints the elements of a slice. -/
def joinSpace : List String → String
  | [] => ""
  | [e] => e
  | e :: es => e ++ " " ++ joinSpace es

/-- Go `fmt` `%v` of a slice of errors: the messages space-separated inside
square brackets. -/
def goErrSliceFormat (errs : List String) : String :=
  "[" ++ joinSpace errs ++ "]"

/-- `formatCloseErrors` (part_004 lines 207-212): nil when no inner close
failed, otherwise one combined error built with
`fmt.Errorf("errors closing listeners: %v", errs)`. -/
def formatCloseErrors (errs : List String) : Option String :=
  if errs.length > 0 then some ("errors closing listeners: " ++ goErrSliceFormat errs)
  else none

/-- `Close` (part_004 lines 147-170): compare-and-swap on `isClosed` (already
closed means return nil at once), then under the lock broadcast the shutdown
signal, close every listener collecting errors, replace the registry with an
empty map, wait for the workers, and return the combined error. -/
def MetaListener.close (ml : MetaListener) : MetaListener × Option String :=
  if ml.isClosed then (ml, none)
  else
    ({ ml with isClosed := true,
               closeChClosed := true,
               listeners := [] },
     formatCloseErrors (closeAllListeners ml.listeners))

/-- Every member of a list is a contiguous part of its space-separated join. -/
theorem mem_isInfix_joinSpace {x : String} :
    ∀ l : List String, x ∈ l → List.IsInfix x.data (joinSpace l).data := by
  intro l
  induction l with
  | nil => intro h; cases h
  | cons e es ih =>
    intro hmem
    cases es with
    | nil =>
      have hx : x = e := by
        cases hmem with
        | head => rfl
        | tail _ h => cases h
      subst hx
      exact ⟨[], [], by simp [joinSpace]⟩
    | cons f fs =>
      cases hmem with
      | head =>
        refine ⟨[], (" " ++ joinSpace (f :: fs)).data, ?_⟩
        simp [joinSpace, String.data_append]
      | tail _ h =>
        obtain ⟨s, t, hst⟩ := ih h
        refine ⟨(e ++ " ").data ++ s, t, ?_⟩
        simp only [joinSpace, String.data_append, List.append_assoc]
        rw [← List.append_assoc s x.data t, hst]

/-- Every collected inner-close message is a contiguous part of the combined
close error produced by `formatCloseErrors`. -/
theorem mem_isInfix_errFormat {x : String} {l : List String} (hx : x ∈ l) :
    List.IsInfix x.data ("errors closing listeners: " ++ goErrSliceFormat l).data := by
  obtain ⟨s, t, hst⟩ := mem_isInfix_joinSpace l hx
  refine ⟨("errors closing listeners: " ++ "[").data ++ s, t ++ "]".data, ?_⟩
  simp only [goErrSliceFormat, String.data_append, List.append_assoc]
  rw [← List.append_assoc x.data t, ← List.append_assoc s (x.data ++ t),
    ← List.append_assoc s x.data t, hst]

/-- C1.  Close is idempotent: the first call on a not-yet-closed supervisor
marks it closed, walks and empties the whole registry, and returns either nil
(when no inner close failed) or one combined error in which every inner-close
error message occurs verbatim; any call on an already-closed supervisor,
including every call after the first, changes nothing and returns nil. -/
theorem metaListener_close_idempotent_aggregate (ml : MetaListener)
    (h : ml.isClosed = false) :
    (ml.close).1.isClosed = true ∧
    (ml.close).1.listeners = [] ∧
    (ml.close).2 = formatCloseErrors (closeAllListeners ml.listeners) ∧
    (closeAllListeners ml.listeners = [] → (ml.close).2 = none) ∧
    (∀ msg ∈ closeAllListeners ml.listeners,
      ∃ s, (ml.close).2 = some s ∧ List.IsInfix msg.data s.data) ∧
    (∀ m : MetaListener, m.isClosed = true → m.close = (m, none)) ∧
    (ml.close).1.close = ((ml.close).1, none) := by
  have hc : ml.close =
      ({ ml with isClosed := true, closeChClosed := true, listeners := [] },
       formatCloseErrors (closeAllListeners ml.listeners)) := by
    simp [MetaListener.close, h]
  refine ⟨by rw [hc], by rw [hc], by rw [hc], ?_, ?_, ?_, ?_⟩
  · intro hz
    rw [hc]
    simp [formatCloseErrors, hz]
  · intro msg hmem
    rw [hc]
    refine ⟨"errors closing listeners: " ++ goErrSliceFormat (closeAllListeners ml.listeners),
      ?_, mem_isInfix_errFormat hmem⟩
    have : 0 < (closeAllListeners ml.listeners).length :=
      List.length_pos.mpr (List.ne_nil_of_mem hmem)
    simp [formatCloseErrors, this]
  · intro m hm
    simp [MetaListener.close, hm]
  · rw [hc]
    simp [MetaListener.close]

/-- A concrete supervisor holding two listeners whose closes fail. -/
def mlCloseExample : MetaListener :=
  { listeners := [("a", { closeErrMsg := some "boom-a" }),
                  ("b", { closeErrMsg := some "boom-b" })] }

/-- C1 witness: the close theorem instantiated at `mlCloseExample`. -/
theorem metaListener_close_idempotent_aggregate_witness :
    mlCloseExample.isClosed = false ∧
    ((mlCloseExample.close).1.isClosed = true ∧
     (mlCloseExample.close).1.listeners = [] ∧
     (mlCloseExample.close).2 = formatCloseErrors (closeAllListeners mlCloseExample.listeners) ∧
     (closeAllListeners mlCloseExample.listeners = [] → (mlCloseExample.close).2 = none) ∧
     (∀ msg ∈ closeAllListeners mlCloseExample.listeners,
       ∃ s, (mlCloseExample.close).2 = some s ∧ List.IsInfix msg.data s.data) ∧
     (∀ m : MetaListener, m.isClosed = true → m.close = (m, none)) ∧
     (mlCloseExample.close).1.close = ((mlCloseExample.close).1, none)) :=
  ⟨rfl, metaListener_close_idempotent_aggregate mlCloseExample rfl⟩

/-- The errors `AddListener` can return. -/
inductive AddError where
  | nilListener
  | alreadyClosed
  | shuttingDown
  | duplicateId
deriving DecidableEq, Repr

/-- Modelled from the spec: the current `AddListener` with the shutting-down
check is missing from src (only the older versions without it, its callers,
and the test `TestWaitGroupSynchronization` that exercises it are present).
Spec §4.1: `register(id, listener)` fails on a nil listener, on an
already-closed supervisor, on a shutdown-wait in progress, or on a duplicate
id; on success it inserts exactly one entry and increments the worker-group
counter before spawning exactly one worker. -/
def MetaListener.addListener (ml : MetaListener) (id : String)
    (l : Option InnerListener) : MetaListener × Option AddError :=
  match l with
  | none => (ml, some .nilListener)
  | some lst =>
    if ml.isClosed then (ml, some .alreadyClosed)
    else if ml.isShuttingDown then (ml, some .shuttingDown)
    else if ml.listeners.any (fun p => p.1 == id) then (ml, some .duplicateId)
    else ({ ml with listeners := ml.listeners ++ [(id, lst)],
                    workers := ml.workers + 1 }, none)

/-- Modelled from the spec: `WaitForShutdown` (wait-for-drain) first raises the
shutting-down flag, blocking all further registrations; the flag-raising step
is missing from the `WaitForShutdown` bodies present in src. -/
def MetaListener.beginWaitForShutdown (ml : MetaListener) : MetaListener :=
  { ml with isShuttingDown := true }

/-- C2.  `AddListener` fails exactly when the listener is nil, the supervisor
is closed, a shutdown-wait has begun, or the id already exists; once
`beginWaitForShutdown` has run on a not-yet-closed supervisor a registration
returns the shutting-down error; and a successful registration appends exactly
the one new entry and increments the worker counter by one. -/
theorem metaListener_addListener_errors (ml : MetaListener) (id : String)
    (l : Option InnerListener) :
    ((ml.addListener id l).2 ≠ none ↔
      (l = none ∨ ml.isClosed = true ∨ ml.isShuttingDown = true ∨
        ml.listeners.any (fun p => p.1 == id) = true)) ∧
    (∀ lst : InnerListener, ml.isClosed = false →
      ((ml.beginWaitForShutdown).addListener id (some lst)).2 = some .shuttingDown) ∧
    (∀ lst : InnerListener, l = some lst → (ml.addListener id l).2 = none →
      (ml.addListener id l).1.listeners = ml.listeners ++ [(id, lst)] ∧
      (ml.addListener id l).1.workers = ml.workers + 1) := by
  refine ⟨?_, ?_, ?_⟩
  · constructor
    · intro hne
      cases l with
      | none => exact Or.inl rfl
      | some lst =>
        by_cases hc : ml.isClosed = true
        · exact Or.inr (Or.inl hc)
        · by_cases hs : ml.isShuttingDown = true
          · exact Or.inr (Or.inr (Or.inl hs))
          · by_cases hd : ml.listeners.any (fun p => p.1 == id) = true
            · exact Or.inr (Or.inr (Or.inr hd))
            · exact absurd
                (by simp [MetaListener.addListener, Bool.eq_false_iff.mpr hc,
                  Bool.eq_false_iff.mpr hs, hd])
                hne
    · intro hcases
      cases l with
      | none => simp [MetaListener.addListener]
      | some lst =>
        rcases hcases with hnil | hc | hs | hd
        · cases hnil
        · simp [MetaListener.addListener, hc]
        · simp only [MetaListener.addListener]
          by_cases hc : ml.isClosed = true
          · simp [hc]
          · simp [Bool.eq_false_iff.mpr hc, hs]
        · simp only [MetaListener.addListener]
          by_cases hc : ml.isClosed = true
          · simp [hc]
          · by_cases hs : ml.isShuttingDown = true
            · simp [Bool.eq_false_iff.mpr hc, hs]
            · simp [Bool.eq_false_iff.mpr hc, Bool.eq_false_iff.mpr hs, hd]
  · intro lst hopen
    simp [MetaListener.addListener, MetaListener.beginWaitForShutdown, hopen]
  · intro lst hl hok
    subst hl
    by_cases hc : ml.isClosed = true
    · simp [MetaListener.addListener, hc] at hok
    · by_cases hs : ml.isShuttingDown = true
      · simp [MetaListener.addListener, Bool.eq_false_iff.mpr hc, hs] at hok
      · by_cases hd : ml.listeners.any (fun p => p.1 == id) = true
        · simp [MetaListener.addListener, Bool.eq_false_iff.mpr hc,
            Bool.eq_false_iff.mpr hs, hd] at hok
        · constructor <;>
            simp [MetaListener.addListener, Bool.eq_false_iff.mpr hc,
              Bool.eq_false_iff.mpr hs, hd]

/-- C2 witness: the registration theorem instantiated at a fresh supervisor
and a concrete listener. -/
theorem metaListener_addListener_errors_witness :
    (((newMetaListener.addListener "tcp" (some {})).2 ≠ none ↔
      ((some { } : Option InnerListener) = none ∨ newMetaListener.isClosed = true ∨
        newMetaListener.isShuttingDown = true ∨
        newMetaListener.listeners.any (fun p => p.1 == "tcp") = true)) ∧
     (∀ lst : InnerListener, newMetaListener.isClosed = false →
       ((newMetaListener.beginWaitForShutdown).addListener "tcp" (some lst)).2 =
         some .shuttingDown) ∧
     (∀ lst : InnerListener, (some { } : Option InnerListener) = some lst →
       (newMetaListener.addListener "tcp" (some {})).2 = none →
       (newMetaListener.addListener "tcp" (some {})).1.listeners =
         newMetaListener.listeners ++ [("tcp", lst)] ∧
       (newMetaListener.addListener "tcp" (some {})).1.workers =
         newMetaListener.workers + 1)) :=
  metaListener_addListener_errors newMetaListener "tcp" (some {})

/-- What one call to the accept facade does on a given supervisor state:
return a connection, return an error, or suspend. -/
inductive AcceptOutcome where
  | gotConn (c : ConnResult)
  | gotErr (msg : String)
  | blocked
deriving DecidableEq, Repr

/-- `Accept` (part_004 lines 12-34 and `waitForConnection`): test the closed
flag first and return the closed error if set; otherwise select between the
fan-in channel and the shutdown signal.  A queued connection is returned; a
closed fan-in channel yields the closed error; a shutdown-signal wake-up
re-checks the closed flag (still down in this pure state) and re-enters the
select, which never terminates, i.e. the call suspends; with nothing ready the
call suspends.  No branch mentions `ErrNoListeners`. -/
def MetaListener.accept (ml : MetaListener) : AcceptOutcome :=
  if ml.isClosed then .gotErr errListenerClosedMsg
  else
    match ml.connCh with
    | c :: _ => .gotConn c
    | [] =>
      if ml.connChClosed then .gotErr errListenerClosedMsg
      else .blocked

/-- C3.  Accept returns the closed error whenever the closed flag is set, never
returns the `ErrNoListeners` sentinel, and on an open supervisor with no
registered listeners and an idle fan-in channel it suspends instead of
returning. -/
theorem metaListener_accept_no_sentinel (ml : MetaListener) :
    (ml.isClosed = true → ml.accept = .gotErr errListenerClosedMsg) ∧
    ml.accept ≠ .gotErr errNoListenersMsg ∧
    (ml.isClosed = false → ml.listeners = [] → ml.connCh = [] →
      ml.connChClosed = false → ml.accept = .blocked) := by
  refine ⟨?_, ?_, ?_⟩
  · intro h
    simp [MetaListener.accept, h]
  · by_cases h : ml.isClosed = true
    · simp [MetaListener.accept, h, errListenerClosedMsg, errNoListenersMsg]
    · cases hc : ml.connCh with
      | nil =>
        by_cases hk : ml.connChClosed = true <;>
          simp [MetaListener.accept, Bool.eq_false_iff.mpr h, hc, hk,
            errListenerClosedMsg, errNoListenersMsg]
      | cons c rest =>
        simp [MetaListener.accept, Bool.eq_false_iff.mpr h, hc]
  · intro h _ hc hk
    simp [MetaListener.accept, h, hc, hk]

/-- An open supervisor whose listeners have all self-removed. -/
def mlDrained : MetaListener := { listeners := [] }

/-- C3 witness: the accept theorem instantiated at `mlDrained` and at a closed
supervisor, with each hypothesis discharged concretely. -/
theorem metaListener_accept_no_sentinel_witness :
    mlDrained.accept = .blocked ∧
    ({ mlDrained with isClosed := true } : MetaListener).accept =
      .gotErr errListenerClosedMsg ∧
    mlDrained.accept ≠ .gotErr errNoListenersMsg :=
  ⟨(metaListener_accept_no_sentinel mlDrained).2.2 rfl rfl rfl rfl,
   (metaListener_accept_no_sentinel { mlDrained with isClosed := true }).1 rfl,
   (metaListener_accept_no_sentinel mlDrained).2.1⟩

/-- A Go error as a worker's accept loop sees it: whether the value implements
`net.Error`, and if so what its `Timeout()` and `Temporary()` methods report,
plus its `Error()` message. -/
structure NetError where
  isNetErr : Bool
  timeoutFlag : Bool
  temporaryFlag : Bool
  msg : String
deriving DecidableEq, Repr

/-- What a worker does after classifying one accept error. -/
inductive AcceptErrDecision where
  | continueLoop
  | sleepThenContinue
  | stopQuiet
  | stopWithRemoval
deriving DecidableEq, Repr

/-- The retryable-pattern test in `handleAcceptError` (handler.go lines 70-77):
`strings.Contains` against the three known transient message fragments. -/
def retryablePattern (m : String) : Bool :=
  goContains m "connection reset" || goContains m "broken pipe" ||
    goContains m "resource temporarily unavailable"

/-- `handleAcceptError` (handler.go lines 64-88): a deadline timeout continues
the loop; a message matching a retryable pattern sleeps 100 ms and continues;
with the closed flag already set the worker exits without requesting removal;
anything else is permanent, so the worker signals removal and exits. -/
def handleAcceptError (isClosedFlag : Bool) (e : NetError) : AcceptErrDecision :=
  if e.isNetErr && e.timeoutFlag then .continueLoop
  else if retryablePattern e.msg then .sleepThenContinue
  else if isClosedFlag then .stopQuiet
  else .stopWithRemoval

/-- Capacity of the removal-requests channel.  Modelled from the spec (§3):
the `removeListenerCh` declaration is missing from src; handler.go only uses
the field. -/
def removalChanCapacity : Nat := 10

/-- How one call to `signalListenerRemoval` resolves. -/
inductive RemovalSignal where
  | published
  | droppedClosing
  | blockedFull
deriving DecidableEq, Repr

/-- `signalListenerRemoval` (handler.go lines 91-98): a two-way select between
sending the id on the buffered removal channel and the shutdown signal; with
room in the buffer the send is immediate, with the shutdown signal raised the
id is dropped, and with neither ready the worker waits. -/
def signalListenerRemoval (removeChLen : Nat) (closeChClosed : Bool) : RemovalSignal :=
  if removeChLen < removalChanCapacity then .published
  else if closeChClosed then .droppedClosing
  else .blockedFull

/-- C4 counterexample: an accept error that the listener explicitly marks
temporary (`Temporary()` true) but whose message matches none of the retryable
patterns is not retried after a 100 ms sleep as the claim states: with the
closed flag down, the worker signals removal and exits. -/
theorem handleAcceptError_temporary_counterexample :
    handleAcceptError false
      { isNetErr := true, timeoutFlag := false, temporaryFlag := true,
        msg := "listener wedged" } = .stopWithRemoval ∧
    AcceptErrDecision.stopWithRemoval ≠ .sleepThenContinue := by
  decide

/-- C4 amended.  Worker error classification: a `net.Error` timeout continues
the loop; an error whose message contains one of the three retryable fragments
sleeps and continues; otherwise, with the closed flag set, the worker exits
without requesting removal, and with it down it signals removal and exits.
The explicit temporary mark is ignored: flipping `Temporary()` never changes
the decision.  The removal signal itself is published immediately when the
buffered channel has room and is dropped in favour of exit when the shutdown
signal is up. -/
theorem handleAcceptError_classification (isClosedFlag : Bool) (e : NetError) :
    (handleAcceptError isClosedFlag e = .continueLoop ↔
      (e.isNetErr && e.timeoutFlag) = true) ∧
    (handleAcceptError isClosedFlag e = .sleepThenContinue ↔
      (e.isNetErr && e.timeoutFlag) = false ∧ retryablePattern e.msg = true) ∧
    (handleAcceptError isClosedFlag e = .stopQuiet ↔
      (e.isNetErr && e.timeoutFlag) = false ∧ retryablePattern e.msg = false ∧
        isClosedFlag = true) ∧
    (handleAcceptError isClosedFlag e = .stopWithRemoval ↔
      (e.isNetErr && e.timeoutFlag) = false ∧ retryablePattern e.msg = false ∧
        isClosedFlag = false) ∧
    (∀ b : Bool, handleAcceptError isClosedFlag { e with temporaryFlag := b } =
      handleAcceptError isClosedFlag e) ∧
    (∀ n : Nat, ∀ closing : Bool,
      (n < removalChanCapacity → signalListenerRemoval n closing = .published) ∧
      (¬ n < removalChanCapacity → closing = true →
        signalListenerRemoval n closing = .droppedClosing)) := by
  refine ⟨?_, ?_, ?_, ?_, ?_, ?_⟩
  · cases hn : e.isNetErr <;> cases htf : e.timeoutFlag <;>
      by_cases hr : retryablePattern e.msg = true <;>
      cases isClosedFlag <;>
      simp_all [handleAcceptError]
  · cases hn : e.isNetErr <;> cases htf : e.timeoutFlag <;>
      by_cases hr : retryablePattern e.msg = true <;>
      cases isClosedFlag <;>
      simp_all [handleAcceptError]
  · cases hn : e.isNetErr <;> cases htf : e.timeoutFlag <;>
      by_cases hr : retryablePattern e.msg = true <;>
      cases isClosedFlag <;>
      simp_all [handleAcceptError]
  · cases hn : e.isNetErr <;> cases htf : e.timeoutFlag <;>
      by_cases hr : retryablePattern e.msg = true <;>
      cases isClosedFlag <;>
      simp_all [handleAcceptError]
  · intro b
    simp [handleAcceptError]
  · intro n closing
    constructor
    · intro hlt
      simp [signalListenerRemoval, hlt]
    · intro hge hcl
      simp [signalListenerRemoval, hge, hcl]

/-- C4 witness: the classification theorem instantiated at a permanent error
on an open supervisor, with the classification evaluated concretely. -/
theorem handleAcceptError_classification_witness :
    (handleAcceptError false
      { isNetErr := false, timeoutFlag := false, temporaryFlag := false,
        msg := "accept tcp: use of closed network connection" } = .stopWithRemoval ↔
      ((false : Bool) && false) = false ∧
        retryablePattern "accept tcp: use of closed network connection" = false ∧
        (false : Bool) = false) :=
  (handleAcceptError_classification false
    { isNetErr := false, timeoutFlag := false, temporaryFlag := false,
      msg := "accept tcp: use of closed network connection" }).2.2.2.1

/-- An onramp anonymity manager (Onion or Garlic): its construction label and
the error message its `Close` returns. -/
structure Manager where
  label : String
  closeErrMsg : Option String := none
deriving DecidableEq, Repr

/-- State of a `Mirror` (part_001 lines 17-22): the embedded MetaListener and
the per-port onion and garlic manager maps (association lists keyed by port). -/
structure MirrorState where
  embedded : MetaListener := newMetaListener
  onions : List (String × Manager) := []
  garlics : List (String × Manager) := []
deriving DecidableEq, Repr

/-- Split a character list at its last colon: the part before and after it. -/
def splitAtLastColon (cs : List Char) : Option (List Char × List Char) :=
  match cs.reverse.findIdx? (fun c => c == ':') with
  | none => none
  | some i => some (cs.take (cs.length - 1 - i), cs.drop (cs.length - i))

/-- Model of Go's `net.SplitHostPort` for the plain `host:port` strings this
repository feeds it: split at the last colon, fail when there is no colon or
when the host part itself contains a colon.  Bracketed IPv6 literals are not
used by the repository and are modelled as failures. -/
def splitHostPort (s : String) : Option (String × String) :=
  match splitAtLastColon s.data with
  | none => none
  | some (h, p) => if h.contains ':' then none else some (⟨h⟩, ⟨p⟩)

/-- `parsePortFromName` (part_001 lines 102-112): the port of a host:port
name, defaulting to "3000" when `net.SplitHostPort` fails. -/
def parsePortFromName (name : String) : String :=
  match splitHostPort name with
  | some (_, port) => port
  | none => "3000"

/-- Initial value of the package-level `HIDDEN_TLS` toggle (part_001 line
393). -/
def HIDDEN_TLS_initial : Bool := true

/-- `hiddenTls` (part_001 lines 395-403): false when the port string ends with
"22" (SSH convention), otherwise the value of the global `HIDDEN_TLS` toggle. -/
def hiddenTls (hiddenTlsGlobal : Bool) (port : String) : Bool :=
  if goHasSuffix port "22" then false else hiddenTlsGlobal

/-- Outcomes of the external collaborators one Mirror compose touches: the
environment toggles, whether each external creation succeeds, and the
addresses the opened listeners report. -/
structure ListenEnv where
  disableTor : Bool := false
  disableI2P : Bool := false
  tcpListenOk : Bool := true
  newOnionOk : Bool := true
  newGarlicOk : Bool := true
  onionListenOk : Bool := true
  garlicListenOk : Bool := true
  tlsNewOk : Bool := true
  onionAddr : String := "x.onion:80"
  garlicAddr : String := "y.b32.i2p:80"
  tlsAddr : String := "0.0.0.0:443"
deriving DecidableEq, Repr

/-- Registration into a supervisor as the Mirror helpers perform it,
propagating the `AddListener` error. -/
def addListenerE (m : MetaListener) (id : String) (l : InnerListener) :
    Except String MetaListener :=
  match m.addListener id (some l) with
  | (m2, none) => .ok m2
  | (_, some _) => .error ("add listener " ++ id ++ " failed")

/-- `setupLocalTCPListener` (part_001 lines 115-132): bind a loopback TCP
listener on the port, wrap it with `tcp.Config`, and register it under the
port string as id. -/
def setupLocalTCPListener (env : ListenEnv) (port : String) (m : MetaListener) :
    Except String MetaListener :=
  if env.tcpListenOk then addListenerE m port { kind := .tcpHardened }
  else .error ("failed to create TCP listener on 127.0.0.1:" ++ port)

/-- First block of `ensureHiddenServiceListeners` (part_001 lines 140-148):
create the per-port onion manager when the map has none for this port and Tor
is enabled. -/
def MirrorState.ensureOnion (ms : MirrorState) (env : ListenEnv)
    (port listenerId : String) : Except String MirrorState :=
  if (ms.onions.lookup port).isNone && !env.disableTor then
    (if env.newOnionOk then
       Except.ok { ms with onions := (port, { label := listenerId }) :: ms.onions }
     else Except.error "NewOnion failed")
  else Except.ok ms

/-- Second block of `ensureHiddenServiceListeners` (part_001 lines 150-158):
create the per-port garlic manager when the map has none for this port and I2P
is enabled. -/
def MirrorState.ensureGarlic (ms : MirrorState) (env : ListenEnv)
    (port listenerId : String) : Except String MirrorState :=
  if (ms.garlics.lookup port).isNone && !env.disableI2P then
    (if env.newGarlicOk then
       Except.ok { ms with garlics := (port, { label := listenerId }) :: ms.garlics }
     else Except.error "NewGarlic failed")
  else Except.ok ms

/-- `ensureHiddenServiceListeners` (part_001 lines 135-161): under the
Mirror's lock, the onion block then the garlic block. -/
def MirrorState.ensureHiddenServiceListeners (ms : MirrorState) (env : ListenEnv)
    (port listenerId : String) : Except String MirrorState :=
  match ms.ensureOnion env port listenerId with
  | .error e => .error e
  | .ok ms1 => ms1.ensureGarlic env port listenerId

/-- `addOnionListener` (part_001 lines 164-224): skip entirely when Tor is
disabled; otherwise fetch the per-port onion manager (error when absent), open
a TLS or plain listener according to `useTLS`, and register it under
`onion-<address>`. -/
def MirrorState.addOnionListener (ms : MirrorState) (env : ListenEnv) (port : String)
    (m : MetaListener) (useTLS : Bool) : Except String MetaListener :=
  if env.disableTor then .ok m
  else
    match ms.onions.lookup port with
    | none => .error ("no onion instance found for port " ++ port)
    | some _ =>
      if env.onionListenOk then
        addListenerE m ("onion-" ++ env.onionAddr) { kind := .onionSvc, usesTls := useTLS }
      else .error "onion listen failed"

/-- `addGarlicListener` (part_001 lines 227-287): the garlic analogue of
`addOnionListener`, registering under `garlic-<address>`. -/
def MirrorState.addGarlicListener (ms : MirrorState) (env : ListenEnv) (port : String)
    (m : MetaListener) (useTLS : Bool) : Except String MetaListener :=
  if env.disableI2P then .ok m
  else
    match ms.garlics.lookup port with
    | none => .error ("no garlic instance found for port " ++ port)
    | some _ =>
      if env.garlicListenOk then
        addListenerE m ("garlic-" ++ env.garlicAddr) { kind := .garlicSvc, usesTls := useTLS }
      else .error "garlic listen failed"

/-- `setupTLSListener` (part_001 lines 290-311): skip when no email address
is given; otherwise build the wileedot ACME listener and register it under
`tls-<address>`. -/
def setupTLSListener (env : ListenEnv) (name addr : String) (m : MetaListener) :
    Except String MetaListener :=
  if addr == "" then .ok m
  else if env.tlsNewOk then
    addListenerE m ("tls-" ++ env.tlsAddr) { kind := .tlsAcme, usesTls := true }
  else .error "wileedot new failed"

/-- `Mirror.Listen` (part_001 lines 313-356): create a fresh MetaListener for
this call, parse the port from the name, compute the per-port hidden-TLS
policy, register the hardened loopback TCP listener into the fresh instance,
lazily create the per-port managers in the Mirror's maps, open and register
the onion and garlic listeners (TLS variant iff hidden-TLS), optionally
register the ACME TLS listener, and return the fresh instance. -/
def MirrorState.listen (ms : MirrorState) (env : ListenEnv) (hiddenTlsGlobal : Bool)
    (name addr : String) : Except String (MirrorState × MetaListener) :=
  let fresh := newMetaListener
  let port := parsePortFromName name
  let htls := hiddenTls hiddenTlsGlobal port
  match setupLocalTCPListener env port fresh with
  | .error e => .error e
  | .ok fresh1 =>
    let listenerId := "metalistener-" ++ name ++ "-" ++ port
    match ms.ensureHiddenServiceListeners env port listenerId with
    | .error e => .error e
    | .ok ms1 =>
      match ms1.addOnionListener env port fresh1 htls with
      | .error e => .error e
      | .ok fresh2 =>
        match ms1.addGarlicListener env port fresh2 htls with
        | .error e => .error e
        | .ok fresh3 =>
          match setupTLSListener env name addr fresh3 with
          | .error e => .error e
          | .ok fresh4 => .ok (ms1, fresh4)

/-- A successful `addListenerE` appends exactly the one new entry. -/
theorem addListenerE_ok {m m2 : MetaListener} {id : String} {l : InnerListener}
    (h : addListenerE m id l = .ok m2) :
    m2.listeners = m.listeners ++ [(id, l)] := by
  by_cases hc : m.isClosed = true
  · simp [addListenerE, MetaListener.addListener, hc] at h
  · by_cases hs : m.isShuttingDown = true
    · simp [addListenerE, MetaListener.addListener, Bool.eq_false_iff.mpr hc, hs] at h
    · by_cases hd : m.listeners.any (fun p => p.1 == id) = true
      · simp [addListenerE, MetaListener.addListener, Bool.eq_false_iff.mpr hc,
          Bool.eq_false_iff.mpr hs, hd] at h
      · simp only [addListenerE, MetaListener.addListener, Bool.eq_false_iff.mpr hc,
          Bool.eq_false_iff.mpr hs, Bool.eq_false_iff.mpr hd, Bool.false_eq_true,
          if_false] at h
        rw [← Except.ok.inj h]

/-- A successful `setupLocalTCPListener` appends exactly the hardened loopback
TCP entry under the port id. -/
theorem setupLocalTCPListener_ok {env : ListenEnv} {port : String}
    {m m2 : MetaListener} (h : setupLocalTCPListener env port m = .ok m2) :
    m2.listeners = m.listeners ++
      [(port, { kind := .tcpHardened, usesTls := false, closeErrMsg := none })] := by
  by_cases ht : env.tcpListenOk = true
  · simp only [setupLocalTCPListener, ht, if_true] at h
    exact addListenerE_ok h
  · simp [setupLocalTCPListener, Bool.eq_false_iff.mpr ht] at h

/-- A successful `addOnionListener` either skips (Tor disabled) or appends
exactly one `onion-` entry carrying the requested TLS mode. -/
theorem addOnionListener_ok {ms : MirrorState} {env : ListenEnv} {port : String}
    {m m2 : MetaListener} {u : Bool}
    (h : ms.addOnionListener env port m u = .ok m2) :
    (env.disableTor = true ∧ m2 = m) ∨
    (env.disableTor = false ∧ m2.listeners = m.listeners ++
      [("onion-" ++ env.onionAddr,
        { kind := .onionSvc, usesTls := u, closeErrMsg := none })]) := by
  by_cases hdis : env.disableTor = true
  · left
    refine ⟨hdis, ?_⟩
    simp only [MirrorState.addOnionListener, hdis, if_true] at h
    exact (Except.ok.inj h).symm
  · right
    refine ⟨Bool.eq_false_iff.mpr hdis, ?_⟩
    simp only [MirrorState.addOnionListener, Bool.eq_false_iff.mpr hdis,
      Bool.false_eq_true, if_false] at h
    cases hl : ms.onions.lookup port with
    | none => rw [hl] at h; simp at h
    | some mg =>
      rw [hl] at h
      by_cases hok : env.onionListenOk = true
      · simp only [hok, if_true] at h
        exact addListenerE_ok h
      · simp [Bool.eq_false_iff.mpr hok] at h

/-- A successful `addGarlicListener` either skips (I2P disabled) or appends
exactly one `garlic-` entry carrying the requested TLS mode. -/
theorem addGarlicListener_ok {ms : MirrorState} {env : ListenEnv} {port : String}
    {m m2 : MetaListener} {u : Bool}
    (h : ms.addGarlicListener env port m u = .ok m2) :
    (env.disableI2P = true ∧ m2 = m) ∨
    (env.disableI2P = false ∧ m2.listeners = m.listeners ++
      [("garlic-" ++ env.garlicAddr,
        { kind := .garlicSvc, usesTls := u, closeErrMsg := none })]) := by
  by_cases hdis : env.disableI2P = true
  · left
    refine ⟨hdis, ?_⟩
    simp only [MirrorState.addGarlicListener, hdis, if_true] at h
    exact (Except.ok.inj h).symm
  · right
    refine ⟨Bool.eq_false_iff.mpr hdis, ?_⟩
    simp only [MirrorState.addGarlicListener, Bool.eq_false_iff.mpr hdis,
      Bool.false_eq_true, if_false] at h
    cases hl : ms.garlics.lookup port with
    | none => rw [hl] at h; simp at h
    | some mg =>
      rw [hl] at h
      by_cases hok : env.garlicListenOk = true
      · simp only [hok, if_true] at h
        exact addListenerE_ok h
      · simp [Bool.eq_false_iff.mpr hok] at h

/-- A successful `setupTLSListener` either skips (no email) or appends exactly
one TLS `tls-` entry. -/
theorem setupTLSListener_ok {env : ListenEnv} {name addr : String}
    {m m2 : MetaListener} (h : setupTLSListener env name addr m = .ok m2) :
    (addr = "" ∧ m2 = m) ∨
    (addr ≠ "" ∧ m2.listeners = m.listeners ++
      [("tls-" ++ env.tlsAddr,
        { kind := .tlsAcme, usesTls := true, closeErrMsg := none })]) := by
  by_cases ha : addr = ""
  · left
    refine ⟨ha, ?_⟩
    simp only [setupTLSListener, ha, beq_self_eq_true, if_true] at h
    exact (Except.ok.inj h).symm
  · right
    refine ⟨ha, ?_⟩
    have hb : (addr == "") = false := beq_eq_false_iff_ne.mpr ha
    simp only [setupTLSListener, hb, Bool.false_eq_true, if_false] at h
    by_cases hok : env.tlsNewOk = true
    · simp only [hok, if_true] at h
      exact addListenerE_ok h
    · simp [Bool.eq_false_iff.mpr hok] at h

/-- A successful `ensureOnion` keeps the embedded supervisor and the garlic
map, and leaves a manager under the port whenever Tor is enabled. -/
theorem ensureOnion_ok {ms ms1 : MirrorState} {env : ListenEnv} {port lid : String}
    (h : ms.ensureOnion env port lid = .ok ms1) :
    ms1.embedded = ms.embedded ∧ ms1.garlics = ms.garlics ∧
    (env.disableTor = false → (ms1.onions.lookup port).isSome = true) := by
  by_cases hc : ((ms.onions.lookup port).isNone && !env.disableTor) = true
  · by_cases hok : env.newOnionOk = true
    · simp only [MirrorState.ensureOnion, hc, if_true, hok] at h
      have h2 := (Except.ok.inj h).symm
      subst h2
      refine ⟨rfl, rfl, fun _ => ?_⟩
      simp [List.lookup]
    · simp [MirrorState.ensureOnion, hc, Bool.eq_false_iff.mpr hok] at h
  · simp only [MirrorState.ensureOnion, hc, Bool.false_eq_true, if_false] at h
    have h2 := Except.ok.inj h
    refine ⟨by rw [← h2], by rw [← h2], fun hdt => ?_⟩
    rw [← h2]
    simp only [Bool.and_eq_true, Bool.not_eq_true', not_and] at hc
    cases hx : ms.onions.lookup port with
    | none => exact absurd hdt (hc (by simp [hx]))
    | some mg => rfl

/-- A successful `ensureGarlic` keeps the embedded supervisor and the onion
map, and leaves a manager under the port whenever I2P is enabled. -/
theorem ensureGarlic_ok {ms ms1 : MirrorState} {env : ListenEnv} {port lid : String}
    (h : ms.ensureGarlic env port lid = .ok ms1) :
    ms1.embedded = ms.embedded ∧ ms1.onions = ms.onions ∧
    (env.disableI2P = false → (ms1.garlics.lookup port).isSome = true) := by
  by_cases hc : ((ms.garlics.lookup port).isNone && !env.disableI2P) = true
  · by_cases hok : env.newGarlicOk = true
    · simp only [MirrorState.ensureGarlic, hc, if_true, hok] at h
      have h2 := (Except.ok.inj h).symm
      subst h2
      refine ⟨rfl, rfl, fun _ => ?_⟩
      simp [List.lookup]
    · simp [MirrorState.ensureGarlic, hc, Bool.eq_false_iff.mpr hok] at h
  · simp only [MirrorState.ensureGarlic, hc, Bool.false_eq_true, if_false] at h
    have h2 := Except.ok.inj h
    refine ⟨by rw [← h2], by rw [← h2], fun hdt => ?_⟩
    rw [← h2]
    simp only [Bool.and_eq_true, Bool.not_eq_true', not_and] at hc
    cases hx : ms.garlics.lookup port with
    | none => exact absurd hdt (hc (by simp [hx]))
    | some mg => rfl

/-- A successful `ensureHiddenServiceListeners` keeps the embedded supervisor
and leaves per-port managers wherever the respective network is enabled. -/
theorem ensureHiddenServiceListeners_ok {ms ms1 : MirrorState} {env : ListenEnv}
    {port lid : String}
    (h : ms.ensureHiddenServiceListeners env port lid = .ok ms1) :
    ms1.embedded = ms.embedded ∧
    (env.disableTor = false → (ms1.onions.lookup port).isSome = true) ∧
    (env.disableI2P = false → (ms1.garlics.lookup port).isSome = true) := by
  unfold MirrorState.ensureHiddenServiceListeners at h
  cases h1 : ms.ensureOnion env port lid with
  | error e => rw [h1] at h; simp at h
  | ok msA =>
    rw [h1] at h
    simp only [] at h
    obtain ⟨he1, hg1, ho1⟩ := ensureOnion_ok h1
    obtain ⟨he2, ho2, hg2⟩ := ensureGarlic_ok h
    exact ⟨he2.trans he1, fun hdt => ho2 ▸ ho1 hdt, hg2⟩

/-- Decomposition of a successful compose: the Mirror state it returns keeps
the embedded supervisor untouched, and the fresh supervisor's registry is the
loopback TCP entry followed by the optional onion, garlic and ACME-TLS
segments. -/
theorem mirrorListen_ok_decomp {ms ms2 : MirrorState} {env : ListenEnv} {g : Bool}
    {name addr : String} {fresh : MetaListener}
    (h : ms.listen env g name addr = .ok (ms2, fresh)) :
    ms2.embedded = ms.embedded ∧
    ∃ oseg gseg tseg,
      fresh.listeners =
        (parsePortFromName name,
          ({ kind := .tcpHardened, usesTls := false, closeErrMsg := none } : InnerListener)) ::
          (oseg ++ gseg ++ tseg) ∧
      ((env.disableTor = true ∧ oseg = []) ∨ (env.disableTor = false ∧
        oseg = [("onion-" ++ env.onionAddr,
          { kind := .onionSvc, usesTls := hiddenTls g (parsePortFromName name),
            closeErrMsg := none })])) ∧
      ((env.disableI2P = true ∧ gseg = []) ∨ (env.disableI2P = false ∧
        gseg = [("garlic-" ++ env.garlicAddr,
          { kind := .garlicSvc, usesTls := hiddenTls g (parsePortFromName name),
            closeErrMsg := none })])) ∧
      ((addr = "" ∧ tseg = []) ∨ (addr ≠ "" ∧
        tseg = [("tls-" ++ env.tlsAddr,
          { kind := .tlsAcme, usesTls := true, closeErrMsg := none })])) := by
  cases h1 : setupLocalTCPListener env (parsePortFromName name) newMetaListener with
  | error e =>
    have hx : ms.listen env g name addr = .error e := by
      simp [MirrorState.listen, h1]
    rw [hx] at h
    exact Except.noConfusion h
  | ok f1 =>
  cases h2 : ms.ensureHiddenServiceListeners env (parsePortFromName name)
      ("metalistener-" ++ name ++ "-" ++ parsePortFromName name) with
  | error e =>
    have hx : ms.listen env g name addr = .error e := by
      simp [MirrorState.listen, h1, h2]
    rw [hx] at h
    exact Except.noConfusion h
  | ok msA =>
  cases h3 : msA.addOnionListener env (parsePortFromName name) f1
      (hiddenTls g (parsePortFromName name)) with
  | error e =>
    have hx : ms.listen env g name addr = .error e := by
      simp [MirrorState.listen, h1, h2, h3]
    rw [hx] at h
    exact Except.noConfusion h
  | ok f2 =>
  cases h4 : msA.addGarlicListener env (parsePortFromName name) f2
      (hiddenTls g (parsePortFromName name)) with
  | error e =>
    have hx : ms.listen env g name addr = .error e := by
      simp [MirrorState.listen, h1, h2, h3, h4]
    rw [hx] at h
    exact Except.noConfusion h
  | ok f3 =>
  cases h5 : setupTLSListener env name addr f3 with
  | error e =>
    have hx : ms.listen env g name addr = .error e := by
      simp [MirrorState.listen, h1, h2, h3, h4, h5]
    rw [hx] at h
    exact Except.noConfusion h
  | ok f4 =>
    have hx : ms.listen env g name addr = .ok (msA, f4) := by
      simp [MirrorState.listen, h1, h2, h3, h4, h5]
    rw [hx] at h
    have hp := Except.ok.inj h
    rw [Prod.mk.injEq] at hp
    obtain ⟨hms, hfr⟩ := hp
    subst hms
    subst hfr
    refine ⟨(ensureHiddenServiceListeners_ok h2).1, ?_⟩
    have ht1 := setupLocalTCPListener_ok h1
    obtain ⟨oseg, hof, hoseg⟩ :
        ∃ oseg, f2.listeners = f1.listeners ++ oseg ∧
          ((env.disableTor = true ∧ oseg = []) ∨ (env.disableTor = false ∧
            oseg = [("onion-" ++ env.onionAddr,
              { kind := .onionSvc, usesTls := hiddenTls g (parsePortFromName name),
                closeErrMsg := none })])) := by
      rcases addOnionListener_ok h3 with ⟨hdt, rfl⟩ | ⟨hdt, ho⟩
      · exact ⟨[], by simp, Or.inl ⟨hdt, rfl⟩⟩
      · exact ⟨_, ho, Or.inr ⟨hdt, rfl⟩⟩
    obtain ⟨gseg, hgf, hgseg⟩ :
        ∃ gseg, f3.listeners = f2.listeners ++ gseg ∧
          ((env.disableI2P = true ∧ gseg = []) ∨ (env.disableI2P = false ∧
            gseg = [("garlic-" ++ env.garlicAddr,
              { kind := .garlicSvc, usesTls := hiddenTls g (parsePortFromName name),
                closeErrMsg := none })])) := by
      rcases addGarlicListener_ok h4 with ⟨hdi, rfl⟩ | ⟨hdi, hg⟩
      · exact ⟨[], by simp, Or.inl ⟨hdi, rfl⟩⟩
      · exact ⟨_, hg, Or.inr ⟨hdi, rfl⟩⟩
    obtain ⟨tseg, htf, htseg⟩ :
        ∃ tseg, f4.listeners = f3.listeners ++ tseg ∧
          ((addr = "" ∧ tseg = []) ∨ (addr ≠ "" ∧
            tseg = [("tls-" ++ env.tlsAddr,
              { kind := .tlsAcme, usesTls := true, closeErrMsg := none })])) := by
      rcases setupTLSListener_ok h5 with ⟨ha, rfl⟩ | ⟨ha, ht⟩
      · exact ⟨[], by simp, Or.inl ⟨ha, rfl⟩⟩
      · exact ⟨_, ht, Or.inr ⟨ha, rfl⟩⟩
    refine ⟨oseg, gseg, tseg, ?_, hoseg, hgseg, htseg⟩
    rw [htf, hgf, hof, ht1]
    simp [newMetaListener]

/-- C5.  Every compose call builds and returns a fresh supervisor: on success
the Mirror keeps its embedded supervisor exactly as it was, and the fresh
supervisor holds precisely the loopback TCP registration, the onion and garlic
registrations (when those networks are enabled), and the ACME-TLS registration
(when an email address is supplied) in registration order. -/
theorem mirror_listen_fresh_supervisor (ms ms2 : MirrorState) (env : ListenEnv)
    (g : Bool) (name addr : String) (fresh : MetaListener)
    (h : ms.listen env g name addr = .ok (ms2, fresh)) :
    ms2.embedded = ms.embedded ∧
    (env.disableTor = false → env.disableI2P = false → addr ≠ "" →
      fresh.listeners.map Prod.fst =
        [parsePortFromName name, "onion-" ++ env.onionAddr,
         "garlic-" ++ env.garlicAddr, "tls-" ++ env.tlsAddr]) ∧
    (env.disableTor = false → env.disableI2P = false → addr = "" →
      fresh.listeners.map Prod.fst =
        [parsePortFromName name, "onion-" ++ env.onionAddr,
         "garlic-" ++ env.garlicAddr]) := by
  obtain ⟨hemb, oseg, gseg, tseg, hlist, ho, hg, ht⟩ := mirrorListen_ok_decomp h
  refine ⟨hemb, ?_, ?_⟩
  · intro hdt hdi ha
    rcases ho with ⟨hd, _⟩ | ⟨_, rfl⟩
    · simp [hd] at hdt
    rcases hg with ⟨hd, _⟩ | ⟨_, rfl⟩
    · simp [hd] at hdi
    rcases ht with ⟨hd, _⟩ | ⟨_, rfl⟩
    · exact absurd hd ha
    rw [hlist]
    simp
  · intro hdt hdi ha
    rcases ho with ⟨hd, _⟩ | ⟨_, rfl⟩
    · simp [hd] at hdt
    rcases hg with ⟨hd, _⟩ | ⟨_, rfl⟩
    · simp [hd] at hdi
    rcases ht with ⟨_, rfl⟩ | ⟨hd, _⟩
    · rw [hlist]
      simp
    · exact absurd ha hd

/-- C6.  The per-port hidden-TLS policy: with the global toggle at its initial
value (true) the policy is false exactly when the port string ends in "22";
whenever the port ends in "22" the policy is false regardless of the global;
and on any successful compose whose parsed port ends in "22" every onion and
garlic listener registered into the fresh supervisor is plain, not TLS. -/
theorem mirror_hiddenTls_port_suffix (ms ms2 : MirrorState) (env : ListenEnv)
    (g : Bool) (name addr : String) (fresh : MetaListener)
    (h : ms.listen env g name addr = .ok (ms2, fresh)) :
    (∀ port : String, hiddenTls HIDDEN_TLS_initial port = false ↔
      goHasSuffix port "22" = true) ∧
    (∀ port : String, goHasSuffix port "22" = true →
      ∀ b : Bool, hiddenTls b port = false) ∧
    (goHasSuffix (parsePortFromName name) "22" = true →
      ∀ e ∈ fresh.listeners,
        (e.2.kind = LKind.onionSvc ∨ e.2.kind = LKind.garlicSvc) →
        e.2.usesTls = false) := by
  refine ⟨?_, ?_, ?_⟩
  · intro port
    by_cases hs : goHasSuffix port "22" = true
    · simp [hiddenTls, hs]
    · simp [hiddenTls, Bool.eq_false_iff.mpr hs, HIDDEN_TLS_initial]
  · intro port hs b
    simp [hiddenTls, hs]
  · intro hsfx e hmem hkind
    obtain ⟨-, oseg, gseg, tseg, hlist, ho, hg, ht⟩ := mirrorListen_ok_decomp h
    have hfalse : hiddenTls g (parsePortFromName name) = false := by
      simp [hiddenTls, hsfx]
    rw [hlist] at hmem
    simp only [List.mem_cons, List.mem_append] at hmem
    rcases hmem with rfl | (hmem | hmem) | hmem
    · rcases hkind with hk | hk <;> simp at hk
    · rcases ho with ⟨-, rfl⟩ | ⟨-, rfl⟩
      · cases hmem
      · simp only [List.mem_singleton] at hmem
        simp [hmem, hfalse]
    · rcases hg with ⟨-, rfl⟩ | ⟨-, rfl⟩
      · cases hmem
      · simp only [List.mem_singleton] at hmem
        simp [hmem, hfalse]
    · rcases ht with ⟨-, rfl⟩ | ⟨-, rfl⟩
      · cases hmem
      · simp only [List.mem_singleton] at hmem
        rcases hkind with hk | hk <;> simp [hmem] at hk

/-- `Mirror.Close` (part_001 lines 26-58): close the embedded MetaListener,
logging but not returning its error; close every onion and every garlic
manager, logging but not returning their errors; replace both maps with empty
maps; return nil. -/
def MirrorState.close (ms : MirrorState) : MirrorState × Option String :=
  ({ embedded := (ms.embedded.close).1, onions := [], garlics := [] }, none)

/-- C8.  Mirror.Close returns nil in every state: whatever errors the embedded
supervisor close and the manager closes produce are discarded, the onion and
garlic maps come back empty, and the embedded supervisor is the closed one. -/
theorem mirror_close_always_nil (ms : MirrorState) :
    (ms.close).2 = none ∧
    (ms.close).1.onions = [] ∧
    (ms.close).1.garlics = [] ∧
    (ms.close).1.embedded = (ms.embedded.close).1 := by
  refine ⟨rfl, rfl, rfl, rfl⟩

/-- A freshly constructed Mirror with empty manager maps. -/
def mirrorStateEx : MirrorState := {}

/-- An environment where every external collaborator succeeds and both
anonymity networks are enabled. -/
def listenEnvEx : ListenEnv := {}

/-- The Mirror state a successful compose of `example.org:8080` leaves. -/
def mirrorResultEx : MirrorState :=
  { embedded := newMetaListener,
    onions := [("8080", { label := "metalistener-example.org:8080-8080" })],
    garlics := [("8080", { label := "metalistener-example.org:8080-8080" })] }

/-- The fresh supervisor a successful compose of `example.org:8080` returns. -/
def freshResultEx : MetaListener :=
  { listeners := [("8080", { kind := .tcpHardened }),
                  ("onion-x.onion:80", { kind := .onionSvc, usesTls := true }),
                  ("garlic-y.b32.i2p:80", { kind := .garlicSvc, usesTls := true }),
                  ("tls-0.0.0.0:443", { kind := .tlsAcme, usesTls := true })],
    workers := 4 }

/-- C5 witness: the fresh-supervisor theorem instantiated at a concrete
compose of `example.org:8080` with an email address. -/
theorem mirror_listen_fresh_supervisor_witness :
    mirrorStateEx.listen listenEnvEx true "example.org:8080" "ops@example.org" =
      .ok (mirrorResultEx, freshResultEx) ∧
    (mirrorResultEx.embedded = mirrorStateEx.embedded ∧
     (listenEnvEx.disableTor = false → listenEnvEx.disableI2P = false →
       "ops@example.org" ≠ "" →
       freshResultEx.listeners.map Prod.fst =
         [parsePortFromName "example.org:8080", "onion-" ++ listenEnvEx.onionAddr,
          "garlic-" ++ listenEnvEx.garlicAddr, "tls-" ++ listenEnvEx.tlsAddr]) ∧
     (listenEnvEx.disableTor = false → listenEnvEx.disableI2P = false →
       "ops@example.org" = "" →
       freshResultEx.listeners.map Prod.fst =
         [parsePortFromName "example.org:8080", "onion-" ++ listenEnvEx.onionAddr,
          "garlic-" ++ listenEnvEx.garlicAddr])) :=
  ⟨by rfl,
   mirror_listen_fresh_supervisor mirrorStateEx mirrorResultEx listenEnvEx true
     "example.org:8080" "ops@example.org" freshResultEx (by rfl)⟩

/-- The Mirror state a successful compose of `svc:1022` leaves. -/
def mirrorResultSsh : MirrorState :=
  { embedded := newMetaListener,
    onions := [("1022", { label := "metalistener-svc:1022-1022" })],
    garlics := [("1022", { label := "metalistener-svc:1022-1022" })] }

/-- The fresh supervisor a successful compose of `svc:1022` returns: its onion
and garlic listeners are plain even though the global default is TLS. -/
def freshResultSsh : MetaListener :=
  { listeners := [("1022", { kind := .tcpHardened }),
                  ("onion-x.onion:80", { kind := .onionSvc, usesTls := false }),
                  ("garlic-y.b32.i2p:80", { kind := .garlicSvc, usesTls := false })],
    workers := 3 }

/-- C6 witness: the hidden-TLS theorem instantiated at a concrete compose of
`svc:1022` under the default global toggle. -/
theorem mirror_hiddenTls_port_suffix_witness :
    mirrorStateEx.listen listenEnvEx true "svc:1022" "" =
      .ok (mirrorResultSsh, freshResultSsh) ∧
    ((∀ port : String, hiddenTls HIDDEN_TLS_initial port = false ↔
       goHasSuffix port "22" = true) ∧
     (∀ port : String, goHasSuffix port "22" = true →
       ∀ b : Bool, hiddenTls b port = false) ∧
     (goHasSuffix (parsePortFromName "svc:1022") "22" = true →
       ∀ e ∈ freshResultSsh.listeners,
         (e.2.kind = LKind.onionSvc ∨ e.2.kind = LKind.garlicSvc) →
         e.2.usesTls = false)) :=
  ⟨by rfl,
   mirror_hiddenTls_port_suffix mirrorStateEx mirrorResultSsh listenEnvEx true
     "svc:1022" "" freshResultSsh (by rfl)⟩

/-- One second in nanoseconds (Go `time.Second` as a `time.Duration`). -/
def timeSecond : Nat := 1000000000

/-- `keepAliveInterval` (tcp/config.go lines 36-39): 15-second keep-alive
probe interval. -/
def keepAliveInterval : Nat := 15 * timeSecond

/-- `socketBufferSize` (tcp/config.go lines 41-43): 64 KiB for both socket
buffers. -/
def socketBufferSize : Nat := 64 * 1024

/-- The settable state of a `net.TCPConn` that the hardening touches. -/
structure TCPConn where
  keepAlive : Bool := false
  keepAlivePeriod : Nat := 0
  noDelay : Bool := false
  readBufferSize : Nat := 0
  writeBufferSize : Nat := 0
  closed : Bool := false
deriving DecidableEq, Repr

/-- Which of the five setter syscalls succeed on this connection. -/
structure ConnSysEnv where
  keepAliveOk : Bool := true
  keepAlivePeriodOk : Bool := true
  noDelayOk : Bool := true
  readBufferOk : Bool := true
  writeBufferOk : Bool := true
deriving DecidableEq, Repr

/-- `configureKeepAlive` (tcp/config.go lines 100-110): `SetKeepAlive(true)`
then `SetKeepAlivePeriod(keepAliveInterval)`, stopping at the first failing
setter; the error carries the connection as the failed call left it. -/
def configureKeepAlive (env : ConnSysEnv) (c : TCPConn) :
    Except (String × TCPConn) TCPConn :=
  if env.keepAliveOk then
    (if env.keepAlivePeriodOk then
       .ok { c with keepAlive := true, keepAlivePeriod := keepAliveInterval }
     else .error ("set keep-alive period failed", { c with keepAlive := true }))
  else .error ("set keep-alive failed", c)

/-- `configureLatencyOptimization` (tcp/config.go lines 113-115):
`SetNoDelay(true)`. -/
def configureLatencyOptimization (env : ConnSysEnv) (c : TCPConn) :
    Except (String × TCPConn) TCPConn :=
  if env.noDelayOk then .ok { c with noDelay := true }
  else .error ("set no-delay failed", c)

/-- `configureBufferSizes` (tcp/config.go lines 118-128): `SetReadBuffer`
then `SetWriteBuffer`, both to `socketBufferSize`. -/
def configureBufferSizes (env : ConnSysEnv) (c : TCPConn) :
    Except (String × TCPConn) TCPConn :=
  if env.readBufferOk then
    (if env.writeBufferOk then
       .ok { c with readBufferSize := socketBufferSize,
                    writeBufferSize := socketBufferSize }
     else .error ("set write buffer failed", { c with readBufferSize := socketBufferSize }))
  else .error ("set read buffer failed", c)

/-- `hardenConnection` (tcp/config.go lines 83-97): keep-alive, then latency,
then buffers, stopping at the first failure. -/
def hardenConnection (env : ConnSysEnv) (c : TCPConn) :
    Except (String × TCPConn) TCPConn :=
  match configureKeepAlive env c with
  | .error p => .error p
  | .ok c1 =>
    match configureLatencyOptimization env c1 with
    | .error p => .error p
    | .ok c2 => configureBufferSizes env c2

/-- What `AcceptTCP` on the wrapped TCP listener produced. -/
inductive RawAccept where
  | conn (c : TCPConn)
  | failMsg (e : String)
deriving DecidableEq, Repr

/-- The hardened listener's `Accept` result: a hardened connection, a
propagated accept error, or a hardening error with the closed connection. -/
inductive HardenedAccept where
  | okConn (c : TCPConn)
  | acceptErr (msg : String)
  | hardenErr (msg : String) (c : TCPConn)
deriving DecidableEq, Repr

/-- `Accept` (tcp/config.go lines 67-80): propagate an `AcceptTCP` error with
a nil connection; otherwise apply the hardening, and on a hardening failure
close the connection and return nil together with the error. -/
def hardenedAccept (env : ConnSysEnv) (raw : RawAccept) : HardenedAccept :=
  match raw with
  | .failMsg e => .acceptErr e
  | .conn c =>
    match hardenConnection env c with
    | .ok c2 => .okConn c2
    | .error (msg, cf) => .hardenErr msg { cf with closed := true }

/-- A successful `hardenConnection` applies exactly the five settings. -/
theorem hardenConnection_ok {env : ConnSysEnv} {c c2 : TCPConn}
    (h : hardenConnection env c = .ok c2) :
    c2 = { c with keepAlive := true, keepAlivePeriod := keepAliveInterval,
                  noDelay := true, readBufferSize := socketBufferSize,
                  writeBufferSize := socketBufferSize } := by
  by_cases h1 : env.keepAliveOk = true
  · by_cases h2 : env.keepAlivePeriodOk = true
    · by_cases h3 : env.noDelayOk = true
      · by_cases h4 : env.readBufferOk = true
        · by_cases h5 : env.writeBufferOk = true
          · simp only [hardenConnection, configureKeepAlive,
              configureLatencyOptimization, configureBufferSizes,
              h1, h2, h3, h4, h5, if_true] at h
            exact (Except.ok.inj h).symm
          · simp [hardenConnection, configureKeepAlive,
              configureLatencyOptimization, configureBufferSizes,
              h1, h2, h3, h4, Bool.eq_false_iff.mpr h5] at h
        · simp [hardenConnection, configureKeepAlive,
            configureLatencyOptimization, configureBufferSizes,
            h1, h2, h3, Bool.eq_false_iff.mpr h4] at h
      · simp [hardenConnection, configureKeepAlive,
          configureLatencyOptimization, h1, h2, Bool.eq_false_iff.mpr h3] at h
    · simp [hardenConnection, configureKeepAlive, h1, Bool.eq_false_iff.mpr h2] at h
  · simp [hardenConnection, configureKeepAlive, Bool.eq_false_iff.mpr h1] at h

/-- C7.  Every connection the hardened listener's `Accept` returns has TCP
keep-alive enabled with the 15-second interval, TCP_NODELAY enabled, and
64 KiB receive and send socket buffers. -/
theorem hardened_accept_applies_settings (env : ConnSysEnv) (raw : RawAccept)
    (c2 : TCPConn) (h : hardenedAccept env raw = .okConn c2) :
    c2.keepAlive = true ∧
    c2.keepAlivePeriod = keepAliveInterval ∧
    c2.noDelay = true ∧
    c2.readBufferSize = socketBufferSize ∧
    c2.writeBufferSize = socketBufferSize ∧
    keepAliveInterval = 15 * timeSecond ∧
    socketBufferSize = 65536 := by
  cases raw with
  | failMsg e => simp [hardenedAccept] at h
  | conn c =>
    cases hh : hardenConnection env c with
    | error p =>
      rw [hardenedAccept, hh] at h
      exact HardenedAccept.noConfusion h
    | ok c1 =>
      rw [hardenedAccept, hh] at h
      have hc := HardenedAccept.okConn.inj h
      subst hc
      rw [hardenConnection_ok hh]
      refine ⟨rfl, rfl, rfl, rfl, rfl, rfl, by decide⟩

/-- C7 witness: the settings theorem instantiated at an all-success accept of
a fresh connection. -/
theorem hardened_accept_applies_settings_witness :
    hardenedAccept { } (.conn { }) =
      .okConn { keepAlive := true, keepAlivePeriod := keepAliveInterval,
                noDelay := true, readBufferSize := socketBufferSize,
                writeBufferSize := socketBufferSize } ∧
    (({ keepAlive := true, keepAlivePeriod := keepAliveInterval,
        noDelay := true, readBufferSize := socketBufferSize,
        writeBufferSize := socketBufferSize } : TCPConn).keepAlive = true ∧
     ({ keepAlive := true, keepAlivePeriod := keepAliveInterval,
        noDelay := true, readBufferSize := socketBufferSize,
        writeBufferSize := socketBufferSize } : TCPConn).keepAlivePeriod =
       keepAliveInterval ∧
     ({ keepAlive := true, keepAlivePeriod := keepAliveInterval,
        noDelay := true, readBufferSize := socketBufferSize,
        writeBufferSize := socketBufferSize } : TCPConn).noDelay = true ∧
     ({ keepAlive := true, keepAlivePeriod := keepAliveInterval,
        noDelay := true, readBufferSize := socketBufferSize,
        writeBufferSize := socketBufferSize } : TCPConn).readBufferSize =
       socketBufferSize ∧
     ({ keepAlive := true, keepAlivePeriod := keepAliveInterval,
        noDelay := true, readBufferSize := socketBufferSize,
        writeBufferSize := socketBufferSize } : TCPConn).writeBufferSize =
       socketBufferSize ∧
     keepAliveInterval = 15 * timeSecond ∧
     socketBufferSize = 65536) :=
  ⟨by rfl,
   hardened_accept_applies_settings { } (.conn { })
     { keepAlive := true, keepAlivePeriod := keepAliveInterval,
       noDelay := true, readBufferSize := socketBufferSize,
       writeBufferSize := socketBufferSize } (by rfl)⟩

/-- C9.  If any hardening setter fails on a freshly accepted connection, the
hardened `Accept` closes that connection and returns the error with no
connection: the failure outcome exists, every hardening-failure outcome
carries a closed connection, and no connection value is returned. -/
theorem hardened_accept_failure_closes (env : ConnSysEnv) (c : TCPConn)
    (hfail : (env.keepAliveOk && env.keepAlivePeriodOk && env.noDelayOk &&
              env.readBufferOk && env.writeBufferOk) = false) :
    (∃ msg cf, hardenedAccept env (.conn c) = .hardenErr msg cf) ∧
    (∀ e : ConnSysEnv, ∀ raw : RawAccept, ∀ msg : String, ∀ cf : TCPConn,
      hardenedAccept e raw = .hardenErr msg cf → cf.closed = true) ∧
    (∀ c2 : TCPConn, hardenedAccept env (.conn c) ≠ .okConn c2) := by
  have hgen : ∀ e : ConnSysEnv, ∀ raw : RawAccept, ∀ msg : String, ∀ cf : TCPConn,
      hardenedAccept e raw = .hardenErr msg cf → cf.closed = true := by
    intro e raw msg cf h
    cases raw with
    | failMsg s => simp [hardenedAccept] at h
    | conn c0 =>
      cases hh : hardenConnection e c0 with
      | ok c1 =>
        rw [hardenedAccept, hh] at h
        exact HardenedAccept.noConfusion h
      | error p =>
        rw [hardenedAccept, hh] at h
        have := (HardenedAccept.hardenErr.inj h).2
        rw [← this]
  have hexist : ∃ msg cf, hardenedAccept env (.conn c) = .hardenErr msg cf := by
    by_cases h1 : env.keepAliveOk = true
    · by_cases h2 : env.keepAlivePeriodOk = true
      · by_cases h3 : env.noDelayOk = true
        · by_cases h4 : env.readBufferOk = true
          · by_cases h5 : env.writeBufferOk = true
            · exact absurd hfail (by simp [h1, h2, h3, h4, h5])
            · refine ⟨"set write buffer failed",
                { c with keepAlive := true, keepAlivePeriod := keepAliveInterval,
                         noDelay := true, readBufferSize := socketBufferSize,
                         closed := true }, ?_⟩
              simp [hardenedAccept, hardenConnection, configureKeepAlive,
                configureLatencyOptimization, configureBufferSizes,
                h1, h2, h3, h4, Bool.eq_false_iff.mpr h5]
          · refine ⟨"set read buffer failed",
              { c with keepAlive := true, keepAlivePeriod := keepAliveInterval,
                       noDelay := true, closed := true }, ?_⟩
            simp [hardenedAccept, hardenConnection, configureKeepAlive,
              configureLatencyOptimization, configureBufferSizes,
              h1, h2, h3, Bool.eq_false_iff.mpr h4]
        · refine ⟨"set no-delay failed",
            { c with keepAlive := true, keepAlivePeriod := keepAliveInterval,
                     closed := true }, ?_⟩
          simp [hardenedAccept, hardenConnection, configureKeepAlive,
            configureLatencyOptimization, h1, h2, Bool.eq_false_iff.mpr h3]
      · refine ⟨"set keep-alive period failed",
          { c with keepAlive := true, closed := true }, ?_⟩
        simp [hardenedAccept, hardenConnection, configureKeepAlive,
          h1, Bool.eq_false_iff.mpr h2]
    · refine ⟨"set keep-alive failed", { c with closed := true }, ?_⟩
      simp [hardenedAccept, hardenConnection, configureKeepAlive,
        Bool.eq_false_iff.mpr h1]
  refine ⟨hexist, hgen, ?_⟩
  intro c2 hc
  obtain ⟨msg, cf, heq⟩ := hexist
  rw [heq] at hc
  exact HardenedAccept.noConfusion hc

/-- C9 witness: the failure theorem instantiated at a connection whose
`SetNoDelay` fails. -/
theorem hardened_accept_failure_closes_witness :
    (({ noDelayOk := false } : ConnSysEnv).keepAliveOk &&
     ({ noDelayOk := false } : ConnSysEnv).keepAlivePeriodOk &&
     ({ noDelayOk := false } : ConnSysEnv).noDelayOk &&
     ({ noDelayOk := false } : ConnSysEnv).readBufferOk &&
     ({ noDelayOk := false } : ConnSysEnv).writeBufferOk) = false ∧
    ((∃ msg cf, hardenedAccept { noDelayOk := false } (.conn { }) = .hardenErr msg cf) ∧
     (∀ e : ConnSysEnv, ∀ raw : RawAccept, ∀ msg : String, ∀ cf : TCPConn,
       hardenedAccept e raw = .hardenErr msg cf → cf.closed = true) ∧
     (∀ c2 : TCPConn, hardenedAccept { noDelayOk := false } (.conn { }) ≠ .okConn c2)) :=
  ⟨by decide, hardened_accept_failure_closes { noDelayOk := false } { } (by decide)⟩

/-- An HTTP request as `http.ReadRequest` yields it: the parts `AddHeaders`
touches (request line placeholder plus the header list). -/
structure HttpRequest where
  requestLine : String
  headers : List (String × String)
deriving DecidableEq, Repr

/-- The value `AddHeaders` returns: either the original connection value
untouched, or the pipe-backed wrapper that replays the modified request and
delegates to the base connection. -/
inductive HeaderConn where
  | original (conn : Nat)
  | wrapped (conn : Nat) (req : HttpRequest)
deriving DecidableEq, Repr

/-- `AddHeaders` (mirror/header.go lines 114-185): try `http.ReadRequest` on
the connection's initial bytes (an external parser, represented here by its
outcome `parsed`); on a parse failure return the original connection; on
success add each extra header to the request and return the wrapper connection
built around the same base connection. -/
def AddHeaders (parsed : Option HttpRequest) (conn : Nat)
    (headers : List (String × String)) : HeaderConn :=
  match parsed with
  | none => .original conn
  | some req => .wrapped conn { req with headers := req.headers ++ headers }

/-- C10.  A connection whose initial bytes do not parse as an HTTP request
comes back as the original connection value, with no headers injected and no
wrapper substituted; only a successfully parsed request yields the wrapper,
which carries exactly the parsed request extended with the extra headers; and
the original-connection outcome happens precisely on parse failure. -/
theorem addHeaders_non_http_unchanged (conn : Nat)
    (headers : List (String × String)) :
    AddHeaders none conn headers = .original conn ∧
    (∀ req : HttpRequest, AddHeaders (some req) conn headers =
      .wrapped conn { req with headers := req.headers ++ headers }) ∧
    (∀ parsed : Option HttpRequest,
      AddHeaders parsed conn headers = .original conn ↔ parsed = none) := by
  refine ⟨rfl, fun req => rfl, fun parsed => ?_⟩
  cases parsed with
  | none => simp [AddHeaders]
  | some req => simp [AddHeaders]

/-- C10 witness: the theorem instantiated at a concrete connection and header
map. -/
theorem addHeaders_non_http_unchanged_witness :
    AddHeaders none 7 [("X-Forwarded-Proto", "http")] = .original 7 ∧
    (∀ req : HttpRequest, AddHeaders (some req) 7 [("X-Forwarded-Proto", "http")] =
      .wrapped 7 { req with headers := req.headers ++ [("X-Forwarded-Proto", "http")] }) ∧
    (∀ parsed : Option HttpRequest,
      AddHeaders parsed 7 [("X-Forwarded-Proto", "http")] = .original 7 ↔
        parsed = none) :=
  addHeaders_non_http_unchanged 7 [("X-Forwarded-Proto", "http")]
